import Mathlib

/-!
Verification of the event-source adapter excerpt: the Emitter broker adapter
(`eventsources/sources/emitter/start.go`, function `StartListening`) and the
file-watch configuration parser (`gateways/core/file/config.go`, function
`parseEventSource`).

The adapter is embedded shallowly: the outcomes of its external collaborators
(TLS-config resolution, secret retrieval, connect-with-backoff, subscribe,
the dispatch pipeline, unsubscribe) are an explicit environment, and
`startListening` is a pure function from the event-source descriptor and that
environment to the returned error (`Option String`, `none` meaning a nil Go
error) together with the trace of observable actions (connect attempt,
subscription, per-message dispatch / metrics calls, unsubscribe attempt).

Payloads are byte sequences (`List Nat`, each element a byte value). Go's
`encoding/json` marshaling of the envelope is modelled with a JSON syntax
tree: a `[]byte` body marshals to a base64 string, a `*json.RawMessage` body
is validated and compacted, failing when the raw bytes are not valid JSON.
-/

/-- JSON whitespace bytes accepted by Go's scanner: space, tab, LF, CR. -/
def isWsByte (b : Nat) : Bool :=
  b = 32 || b = 9 || b = 10 || b = 13

/-- Drop leading JSON whitespace. -/
def skipWs : List Nat → List Nat
  | [] => []
  | b :: rest => if isWsByte b then skipWs rest else b :: rest

/-- ASCII decimal digit test. -/
def isDigitByte (b : Nat) : Bool :=
  48 ≤ b && b ≤ 57

/-- Split a byte list into its leading run of decimal digits and the rest. -/
def takeDigits : List Nat → List Nat × List Nat
  | [] => ([], [])
  | b :: rest =>
    if isDigitByte b then
      let (ds, r) := takeDigits rest
      (b :: ds, r)
    else ([], b :: rest)

/-- Integer part of a JSON number: a lone `0`, or a nonzero digit followed by
digits (leading zeros are a syntax error, as in Go's scanner). -/
def parseIntPart : List Nat → Option (List Nat × List Nat)
  | [] => none
  | b :: rest =>
    if b = 48 then some ([48], rest)
    else if isDigitByte b then
      let (ds, r) := takeDigits rest
      some (b :: ds, r)
    else none

/-- Optional fraction part `.digits` of a JSON number; a dot with no
following digit is a syntax error. -/
def parseFrac : List Nat → Option (List Nat × List Nat)
  | 46 :: rest =>
    let (ds, r) := takeDigits rest
    if ds.isEmpty then none else some (46 :: ds, r)
  | other => some ([], other)

/-- Optional exponent part `e[+-]digits` of a JSON number. -/
def parseExp : List Nat → Option (List Nat × List Nat)
  | [] => some ([], [])
  | b :: rest =>
    if b = 101 || b = 69 then
      match rest with
      | [] => none
      | s :: rest2 =>
        if s = 43 || s = 45 then
          let (ds, r) := takeDigits rest2
          if ds.isEmpty then none else some (b :: s :: ds, r)
        else
          let (ds, r) := takeDigits rest
          if ds.isEmpty then none else some (b :: ds, r)
    else some ([], b :: rest)

/-- A JSON numeric literal, kept as its byte text (Go's compacting pass keeps
the literal bytes of a number unchanged). -/
def parseNumber (input : List Nat) : Option (List Nat × List Nat) :=
  match input with
  | 45 :: rest =>
    (parseIntPart rest).bind fun (ip, r1) =>
      (parseFrac r1).bind fun (fp, r2) =>
        (parseExp r2).map fun (ep, r3) => (45 :: (ip ++ fp ++ ep), r3)
  | _ =>
    (parseIntPart input).bind fun (ip, r1) =>
      (parseFrac r1).bind fun (fp, r2) =>
        (parseExp r2).map fun (ep, r3) => (ip ++ fp ++ ep, r3)

/-- Value of an ASCII hex digit. -/
def hexVal (b : Nat) : Option Nat :=
  if 48 ≤ b && b ≤ 57 then some (b - 48)
  else if 97 ≤ b && b ≤ 102 then some (b - 87)
  else if 65 ≤ b && b ≤ 70 then some (b - 55)
  else none

/-- UTF-8 encoding of a code point below 0x10000 (the range reachable from a
single JSON `\uXXXX` escape). -/
def utf8Encode (n : Nat) : List Nat :=
  if n < 128 then [n]
  else if n < 2048 then [192 + n / 64, 128 + n % 64]
  else [224 + n / 4096, 128 + (n / 64) % 64, 128 + n % 64]

/-- Decoded byte of a single-character JSON escape. -/
def escDecode (b : Nat) : Option Nat :=
  if b = 34 then some 34
  else if b = 92 then some 92
  else if b = 47 then some 47
  else if b = 98 then some 8
  else if b = 102 then some 12
  else if b = 110 then some 10
  else if b = 114 then some 13
  else if b = 116 then some 9
  else none

/-- Body of a JSON string literal, after the opening quote: returns the
decoded content bytes and the input after the closing quote. Control bytes
below 0x20 are a syntax error, as in Go's scanner. -/
def parseStringBody : List Nat → Option (List Nat × List Nat)
  | [] => none
  | 34 :: rest => some ([], rest)
  | 92 :: 117 :: a :: b :: c :: d :: rest =>
    match hexVal a, hexVal b, hexVal c, hexVal d with
    | some ha, some hb, some hc, some hd =>
      (parseStringBody rest).map fun (s, r) =>
        (utf8Encode (ha * 4096 + hb * 256 + hc * 16 + hd) ++ s, r)
    | _, _, _, _ => none
  | 92 :: e :: rest =>
    match escDecode e with
    | some decoded => (parseStringBody rest).map fun (s, r) => (decoded :: s, r)
    | none => none
  | [92] => none
  | b :: rest =>
    if b < 32 then none
    else (parseStringBody rest).map fun (s, r) => (b :: s, r)

mutual
/-- A JSON document as marshaled by Go's `encoding/json`. String contents and
numeric literals are byte sequences. `b64` is a `[]byte` Go value, which
marshals as the base64 string of its bytes: the opaque-body form of the
envelope. -/
inductive Json where
  | null
  | bool (b : Bool)
  | num (lit : List Nat)
  | str (s : List Nat)
  | arr (elems : JsonList)
  | obj (fields : JsonFields)
  | b64 (bytes : List Nat)

/-- Elements of a JSON array. -/
inductive JsonList where
  | nil
  | cons (hd : Json) (tl : JsonList)

/-- Fields of a JSON object, in marshaling order. -/
inductive JsonFields where
  | fnil
  | fcons (key : List Nat) (value : Json) (tl : JsonFields)
end

mutual
/-- JSON value parser (the validating pass Go's `json.Marshal` runs on a
`json.RawMessage` via `compact`), fuel-bounded for structural recursion.
Returns the parsed value and the remaining input. -/
def parseValue : Nat → List Nat → Option (Json × List Nat)
  | 0, _ => none
  | fuel + 1, input =>
    match skipWs input with
    | [] => none
    | 34 :: rest => (parseStringBody rest).map fun (s, r) => (Json.str s, r)
    | 123 :: rest => parseObjRest fuel rest
    | 91 :: rest => parseArrRest fuel rest
    | 116 :: 114 :: 117 :: 101 :: rest => some (Json.bool true, rest)
    | 102 :: 97 :: 108 :: 115 :: 101 :: rest => some (Json.bool false, rest)
    | 110 :: 117 :: 108 :: 108 :: rest => some (Json.null, rest)
    | other => (parseNumber other).map fun (lit, r) => (Json.num lit, r)

/-- Remainder of a JSON object after its opening brace. -/
def parseObjRest : Nat → List Nat → Option (Json × List Nat)
  | 0, _ => none
  | fuel + 1, input =>
    match skipWs input with
    | 125 :: rest => some (Json.obj JsonFields.fnil, rest)
    | other => (parseMembers fuel other).map fun (fs, r) => (Json.obj fs, r)

/-- One or more `"key": value` members, consuming the closing brace. -/
def parseMembers : Nat → List Nat → Option (JsonFields × List Nat)
  | 0, _ => none
  | fuel + 1, input =>
    match skipWs input with
    | 34 :: rest =>
      match parseStringBody rest with
      | none => none
      | some (key, r1) =>
        match skipWs r1 with
        | 58 :: r2 =>
          match parseValue fuel r2 with
          | none => none
          | some (v, r3) =>
            match skipWs r3 with
            | 44 :: r4 =>
              (parseMembers fuel r4).map fun (fs, r5) =>
                (JsonFields.fcons key v fs, r5)
            | 125 :: r4 => some (JsonFields.fcons key v JsonFields.fnil, r4)
            | _ => none
        | _ => none
    | _ => none

/-- Remainder of a JSON array after its opening bracket. -/
def parseArrRest : Nat → List Nat → Option (Json × List Nat)
  | 0, _ => none
  | fuel + 1, input =>
    match skipWs input with
    | 93 :: rest => some (Json.arr JsonList.nil, rest)
    | other => (parseElems fuel other).map fun (xs, r) => (Json.arr xs, r)

/-- One or more array elements, consuming the closing bracket. -/
def parseElems : Nat → List Nat → Option (JsonList × List Nat)
  | 0, _ => none
  | fuel + 1, input =>
    match parseValue fuel input with
    | none => none
    | some (v, r1) =>
      match skipWs r1 with
      | 44 :: r2 =>
        (parseElems fuel r2).map fun (xs, r3) => (JsonList.cons v xs, r3)
      | 93 :: r2 => some (JsonList.cons v JsonList.nil, r2)
      | _ => none
end

/-- Parse a complete JSON document: exactly one value with only whitespace
around it, as Go's `checkValid` requires of a `json.RawMessage`. -/
def parseJson (bytes : List Nat) : Option Json :=
  match parseValue (2 * bytes.length + 4) bytes with
  | some (v, rest) => if (skipWs rest).isEmpty then some v else none
  | none => none

/-- Lowercase ASCII hex digit. -/
def hexDigit (n : Nat) : Nat :=
  if n < 10 then 48 + n else 87 + n

/-- Escaping Go's marshaler applies inside JSON strings: quote, backslash,
newline, carriage return and tab get two-byte escapes, other control bytes
and the HTML-sensitive bytes get a lowercase unicode escape. -/
def escapeByte (b : Nat) : List Nat :=
  if b = 34 then [92, 34]
  else if b = 92 then [92, 92]
  else if b = 10 then [92, 110]
  else if b = 13 then [92, 114]
  else if b = 9 then [92, 116]
  else if b < 32 || b = 60 || b = 62 || b = 38 then
    [92, 117, 48, 48, hexDigit (b / 16), hexDigit (b % 16)]
  else [b]

/-- Render a JSON string literal, quotes included. -/
def renderString (s : List Nat) : List Nat :=
  34 :: (s.flatMap escapeByte ++ [34])

/-- Byte value of a base64 digit, standard alphabet. -/
def base64Char (n : Nat) : Nat :=
  if n < 26 then 65 + n
  else if n < 52 then 97 + (n - 26)
  else if n < 62 then 48 + (n - 52)
  else if n = 62 then 43
  else 47

/-- Standard base64 with padding, as Go's marshaler applies to `[]byte`. -/
def base64Encode : List Nat → List Nat
  | [] => []
  | [a] => [base64Char (a / 4), base64Char (a % 4 * 16), 61, 61]
  | [a, b] =>
    [base64Char (a / 4), base64Char (a % 4 * 16 + b / 16),
     base64Char (b % 16 * 4), 61]
  | a :: b :: c :: rest =>
    base64Char (a / 4) :: base64Char (a % 4 * 16 + b / 16) ::
      base64Char (b % 16 * 4 + c / 64) :: base64Char (c % 64) ::
        base64Encode rest

mutual
/-- Serialize a JSON tree to the bytes `json.Marshal` produces: compact (no
whitespace), fields in order, `[]byte` values as base64 strings. -/
def renderJson : Json → List Nat
  | Json.null => [110, 117, 108, 108]
  | Json.bool true => [116, 114, 117, 101]
  | Json.bool false => [102, 97, 108, 115, 101]
  | Json.num lit => lit
  | Json.str s => renderString s
  | Json.b64 bs => renderString (base64Encode bs)
  | Json.arr xs => 91 :: (renderArr xs ++ [93])
  | Json.obj fs => 123 :: (renderObj fs ++ [125])

/-- Render array elements, comma-separated. -/
def renderArr : JsonList → List Nat
  | JsonList.nil => []
  | JsonList.cons x JsonList.nil => renderJson x
  | JsonList.cons x tl => renderJson x ++ 44 :: renderArr tl

/-- Render object members, comma-separated. -/
def renderObj : JsonFields → List Nat
  | JsonFields.fnil => []
  | JsonFields.fcons k v JsonFields.fnil => renderString k ++ 58 :: renderJson v
  | JsonFields.fcons k v tl =>
    renderString k ++ 58 :: renderJson v ++ 44 :: renderObj tl
end

/-- Key bytes of the envelope's `topic` field. -/
def topicKey : List Nat := [116, 111, 112, 105, 99]

/-- Key bytes of the envelope's `body` field. -/
def bodyKey : List Nat := [98, 111, 100, 121]

/-- Key bytes of the envelope's `metadata` field. -/
def metadataKey : List Nat := [109, 101, 116, 97, 100, 97, 116, 97]

/-- Modelled from the spec: `EmitterEventData` (package `pkg/apis/events`,
not part of the excerpt) — the canonical envelope with a topic/identifier
string, a raw body byte sequence, and a string-to-string metadata mapping
carried from the descriptor. Strings are byte sequences here. -/
structure EmitterEventData where
  topic : List Nat
  body : List Nat
  metadata : List (List Nat × List Nat)

/-- Metadata mapping as JSON object fields. -/
def metadataJson : List (List Nat × List Nat) → JsonFields
  | [] => JsonFields.fnil
  | (k, v) :: rest => JsonFields.fcons k (Json.str v) (metadataJson rest)

/-- The JSON tree `json.Marshal` sees for the envelope: `StartListening`
stores the payload in `Body` as `[]byte`, and when the descriptor's
`JSONBody` flag is set it overwrites it with `(*json.RawMessage)(&body)`, so
marshaling validates the payload as JSON and fails (`none`) when it is not. -/
def envelopeJson (jsonBody : Bool) (e : EmitterEventData) : Option Json :=
  let bodyVal : Option Json :=
    if jsonBody then parseJson e.body else some (Json.b64 e.body)
  match bodyVal with
  | none => none
  | some bv =>
    some (Json.obj (JsonFields.fcons topicKey (Json.str e.topic)
      (JsonFields.fcons bodyKey bv
        (JsonFields.fcons metadataKey (Json.obj (metadataJson e.metadata))
          JsonFields.fnil))))

/-- `eventBytes, err := json.Marshal(event)` in the subscription callback:
the serialized envelope bytes, or `none` when marshaling fails. -/
def marshalEmitterEventData (jsonBody : Bool) (e : EmitterEventData) :
    Option (List Nat) :=
  (envelopeJson jsonBody e).map renderJson

/-- Look a key up among an object's fields (first match, as `json.Marshal`
emits each struct field once). -/
def getField : JsonFields → List Nat → Option Json
  | JsonFields.fnil, _ => none
  | JsonFields.fcons k v tl, key => if k = key then some v else getField tl key

/-- The `body` field of a serialized envelope tree. -/
def bodyField (j : Json) : Option Json :=
  match j with
  | Json.obj fs => getField fs bodyKey
  | _ => none

/-- A secret selector as referenced by the descriptor's `Username` /
`Password` fields; only its name is observable here (it appears in the
wrapped error message). -/
structure SecretKeySelector where
  name : String

/-- The fields of `v1alpha1.EmitterEventSource` that `StartListening` reads:
broker address, channel key and name, optional credential selectors, whether
a TLS block is present, the `JSONBody` flag and the metadata mapping. -/
structure EmitterEventSource where
  broker : String
  channelKey : String
  channelName : String
  username : Option SecretKeySelector
  password : Option SecretKeySelector
  tls : Bool
  jsonBody : Bool
  metadata : List (List Nat × List Nat)

/-- One inbound broker message: its topic and payload bytes. -/
structure Message where
  topic : List Nat
  payload : List Nat

/-- Observable actions of one `StartListening` run, in order: the
connect-with-backoff attempt, reaching the subscribed state, a `dispatch`
call with the serialized envelope bytes, the `EventProcessingFailed` metric,
the `EventProcessingDuration` metric (fired by the callback's deferred
closure), and the shutdown `Unsubscribe` call. -/
inductive RunAction where
  | connectAttempted
  | subscribed
  | dispatched (bytes : List Nat)
  | processingFailed
  | processingDuration
  | unsubscribeAttempted
deriving DecidableEq

/-- Outcomes of the external collaborators for one run. `some e` is a Go
error with message `e`; `none` is a nil error. `connectResult` is the overall
outcome of `common.Connect(ConnectionBackoff, ...)`, i.e. an error only after
the configured backoff is exhausted. `messages` are the inbound messages the
broker delivers while subscribed, in delivery order. -/
structure Env where
  tlsResult : Option String
  usernameResult : Option String
  passwordResult : Option String
  connectResult : Option String
  subscribeResult : Option String
  messages : List Message
  dispatch : List Nat → Option String
  unsubscribeResult : Option String

/-- The subscription callback for one message: the deferred closure records
`EventProcessingDuration` on every path; marshal failure records
`EventProcessingFailed` and returns without dispatching; a dispatch error
records `EventProcessingFailed` after the dispatch call. -/
def handleMessage (es : EmitterEventSource) (dispatch : List Nat → Option String)
    (msg : Message) : List RunAction :=
  match marshalEmitterEventData es.jsonBody
      { topic := msg.topic, body := msg.payload, metadata := es.metadata } with
  | none => [RunAction.processingFailed, RunAction.processingDuration]
  | some bytes =>
    match dispatch bytes with
    | some _ =>
      [RunAction.dispatched bytes, RunAction.processingFailed, RunAction.processingDuration]
    | none => [RunAction.dispatched bytes, RunAction.processingDuration]

/-- The client-option resolution phase of `StartListening`, in source order:
TLS configuration (when a TLS block is present), then the username secret,
then the password secret; the first failure returns the wrapped error. -/
def resolveOptions (es : EmitterEventSource) (env : Env) : Option String :=
  match es.tls, env.tlsResult with
  | true, some e => some ("failed to get the tls configuration: " ++ e)
  | _, _ =>
    match es.username, env.usernameResult with
    | some sel, some e =>
      some ("failed to retrieve the username from " ++ sel.name ++ ": " ++ e)
    | _, _ =>
      match es.password, env.passwordResult with
      | some sel, some e =>
        some ("failed to retrieve the password from " ++ sel.name ++ ": " ++ e)
      | _, _ => none

/-- `StartListening`: resolve options; connect with backoff, wrapping a
terminal failure with the broker address; subscribe, wrapping a failure with
the channel name; then process each delivered message with the callback,
block until cancellation, attempt to unsubscribe (its error only logged) and
return nil. The first component is the returned Go error, the second the
action trace. -/
def startListening (es : EmitterEventSource) (env : Env) :
    Option String × List RunAction :=
  match resolveOptions es env with
  | some e => (some e, [])
  | none =>
    match env.connectResult with
    | some e =>
      (some ("failed to connect to " ++ es.broker ++ ": " ++ e),
       [RunAction.connectAttempted])
    | none =>
      match env.subscribeResult with
      | some e =>
        (some ("failed to subscribe to channel " ++ es.channelName ++ ": " ++ e),
         [RunAction.connectAttempted])
      | none =>
        (none,
         RunAction.connectAttempted :: RunAction.subscribed ::
           (env.messages.flatMap (handleMessage es env.dispatch) ++
             [RunAction.unsubscribeAttempted]))

/-- Number of `dispatch` calls in a trace. -/
def countDispatched (as : List RunAction) : Nat :=
  (as.filter fun a => match a with | RunAction.dispatched _ => true | _ => false).length

/-- Number of `EventProcessingFailed` calls in a trace. -/
def countFailed (as : List RunAction) : Nat :=
  (as.filter fun a => match a with | RunAction.processingFailed => true | _ => false).length

/-- Number of `EventProcessingDuration` calls in a trace. -/
def countDuration (as : List RunAction) : Nat :=
  (as.filter fun a => match a with | RunAction.processingDuration => true | _ => false).length

/-- Normalize-plus-serialize for one message under a descriptor: the
serialized envelope bytes the callback hands to `dispatch`, determined by the
message's topic and payload and the descriptor's `JSONBody` flag and
metadata. -/
def serializeMessage (es : EmitterEventSource) (msg : Message) :
    Option (List Nat) :=
  marshalEmitterEventData es.jsonBody
    { topic := msg.topic, body := msg.payload, metadata := es.metadata }

/-- Modelled from the spec: `WatchPathConfig` (package `gateways/common`, not
part of the excerpt) — the base watch-path settings: the watch-path address
(directory) and the path identifier. -/
structure WatchPathConfig where
  directory : String
  path : String
deriving DecidableEq

/-- The file gateway's configuration: the inlined watch-path settings plus
the file-operation type filter. -/
structure fileWatcher where
  watchPathConfig : WatchPathConfig
  type : String
deriving DecidableEq

/-- A serialized YAML configuration block as `yaml.Unmarshal` sees it:
syntactically malformed, an empty/null document (which leaves the
`*fileWatcher` target nil), or a well-formed mapping of scalar fields. -/
inductive YamlBlock where
  | malformed
  | nullDoc
  | fields (fs : List (String × String))
deriving DecidableEq

/-- Value of a field in a well-formed mapping, or the zero value `""` when
the field is absent (unknown fields are ignored). -/
def lookupField : List (String × String) → String → String
  | [], _ => ""
  | (k, v) :: rest, key => if k = key then v else lookupField rest key

/-- `parseEventSource` of the file gateway: `yaml.Unmarshal` the block into a
`*fileWatcher` and return it with the unmarshal error. Absent fields keep
their zero values; no field is validated. `Except.ok none` is the nil pointer
returned for a null document. -/
def parseEventSource (block : YamlBlock) : Except String (Option fileWatcher) :=
  match block with
  | YamlBlock.malformed => Except.error "yaml: unmarshal errors"
  | YamlBlock.nullDoc => Except.ok none
  | YamlBlock.fields fs =>
    Except.ok (some
      { watchPathConfig :=
          { directory := lookupField fs "directory", path := lookupField fs "path" },
        type := lookupField fs "type" })

/-- A plain descriptor: broker `x`, channel `c`, key `k`, no credentials, no
TLS, opaque body, empty metadata (the spec's first scenario). -/
def esPlain : EmitterEventSource :=
  { broker := "x", channelKey := "k", channelName := "c", username := none,
    password := none, tls := false, jsonBody := false, metadata := [] }

/-- The plain descriptor with the JSON-body flag set. -/
def esJson : EmitterEventSource := { esPlain with jsonBody := true }

/-- Message on topic `c` with payload `hello`. -/
def msgHello : Message := { topic := [99], payload := [104, 101, 108, 108, 111] }

/-- Message on topic `c` whose payload is the JSON text of an object with one
field `a` holding `1`. -/
def msgJsonA : Message := { topic := [99], payload := [123, 34, 97, 34, 58, 49, 125] }

/-- Message on topic `c` whose payload bytes `nope` are not valid JSON. -/
def msgNotJson : Message := { topic := [99], payload := [110, 111, 112, 101] }

/-- A dispatch pipeline that always accepts. -/
def dOk : List Nat → Option String := fun _ => none

/-- A dispatch pipeline that always rejects. -/
def dFail : List Nat → Option String := fun _ => some "dispatch failed"

/-- An environment where every collaborator succeeds and one `hello` message
is delivered. -/
def envHappy : Env :=
  { tlsResult := none, usernameResult := none, passwordResult := none,
    connectResult := none, subscribeResult := none, messages := [msgHello],
    dispatch := dOk, unsubscribeResult := none }

/-- `envHappy` with the connect-with-backoff attempt exhausting its retries. -/
def envConnFail : Env := { envHappy with connectResult := some "connection refused" }

/-- `envHappy` with a dispatch pipeline that always rejects. -/
def envDispatchFail : Env := { envHappy with dispatch := dFail }

/-- The subscription callback, phrased through `serializeMessage`. -/
theorem handleMessage_eq (es : EmitterEventSource) (d : List Nat → Option String)
    (msg : Message) :
    handleMessage es d msg =
      match serializeMessage es msg with
      | none => [RunAction.processingFailed, RunAction.processingDuration]
      | some bytes =>
        match d bytes with
        | some _ =>
          [RunAction.dispatched bytes, RunAction.processingFailed,
           RunAction.processingDuration]
        | none => [RunAction.dispatched bytes, RunAction.processingDuration] := rfl

/-- C1 (amended): for every inbound message handled while subscribed,
`dispatch` is called at most once and `EventProcessingFailed` is recorded at
most once, at least one of the two happens, and both happen exactly when the
envelope marshals successfully and the `dispatch` call returns an error. -/
theorem c1_dispatch_or_failure_per_message (es : EmitterEventSource)
    (d : List Nat → Option String) (msg : Message) :
    countDispatched (handleMessage es d msg) ≤ 1 ∧
    countFailed (handleMessage es d msg) ≤ 1 ∧
    1 ≤ countDispatched (handleMessage es d msg) + countFailed (handleMessage es d msg) ∧
    (countDispatched (handleMessage es d msg) = 1 ∧
        countFailed (handleMessage es d msg) = 1 ↔
      ∃ bytes e, serializeMessage es msg = some bytes ∧ d bytes = some e) := by
  rw [handleMessage_eq]
  cases hm : serializeMessage es msg with
  | none =>
    refine ⟨by simp [countDispatched], by simp [countFailed],
      by simp [countDispatched, countFailed], ?_⟩
    constructor
    · rintro ⟨h1, -⟩
      simp [countDispatched] at h1
    · rintro ⟨bytes, e, hb, -⟩
      simp [hm] at hb
  | some bytes =>
    cases hd : d bytes with
    | some e =>
      refine ⟨by simp [countDispatched, hd], by simp [countFailed, hd],
        by simp [countDispatched, countFailed, hd], ?_⟩
      exact ⟨fun _ => ⟨bytes, e, rfl, hd⟩,
        fun _ => by simp [countDispatched, countFailed, hd]⟩
    | none =>
      refine ⟨by simp [countDispatched, hd], by simp [countFailed, hd],
        by simp [countDispatched, countFailed, hd], ?_⟩
      constructor
      · rintro ⟨-, h2⟩
        simp [countFailed, hd] at h2
      · rintro ⟨bytes', e', hb', hd'⟩
        injection hb' with hbb
        subst hbb
        rw [hd] at hd'
        cases hd'

/-- C1 fails as stated: on a message whose dispatch call returns an error,
`dispatch` is called once and `EventProcessingFailed` is also recorded once,
so both of the supposedly exclusive events happen. -/
theorem c1_counterexample :
    countDispatched (handleMessage esPlain dFail msgHello) = 1 ∧
    countFailed (handleMessage esPlain dFail msgHello) = 1 :=
  ⟨rfl, rfl⟩

/-- C2: when the JSON-body flag is set and the payload parses as JSON, the
envelope marshals with the parsed payload as its `body` field; when the flag
is clear, the envelope always marshals with the payload bytes carried opaquely
(a Go `[]byte`, serialized as their base64 string) as its `body` field. -/
theorem c2_json_body_flag_law (es : EmitterEventSource) (msg : Message) :
    (es.jsonBody = true → ∀ v, parseJson msg.payload = some v →
      ∃ env, envelopeJson es.jsonBody
          { topic := msg.topic, body := msg.payload, metadata := es.metadata } =
            some env ∧
        serializeMessage es msg = some (renderJson env) ∧
        bodyField env = some v) ∧
    (es.jsonBody = false →
      ∃ env, envelopeJson es.jsonBody
          { topic := msg.topic, body := msg.payload, metadata := es.metadata } =
            some env ∧
        serializeMessage es msg = some (renderJson env) ∧
        bodyField env = some (Json.b64 msg.payload)) := by
  constructor
  · intro hjb v hv
    refine ⟨Json.obj (JsonFields.fcons topicKey (Json.str msg.topic)
      (JsonFields.fcons bodyKey v
        (JsonFields.fcons metadataKey (Json.obj (metadataJson es.metadata))
          JsonFields.fnil))), ?_, ?_, rfl⟩
    · simp [envelopeJson, hjb, hv]
    · simp [serializeMessage, marshalEmitterEventData, envelopeJson, hjb, hv]
  · intro hjb
    refine ⟨Json.obj (JsonFields.fcons topicKey (Json.str msg.topic)
      (JsonFields.fcons bodyKey (Json.b64 msg.payload)
        (JsonFields.fcons metadataKey (Json.obj (metadataJson es.metadata))
          JsonFields.fnil))), ?_, ?_, rfl⟩
    · simp [envelopeJson, hjb]
    · simp [serializeMessage, marshalEmitterEventData, envelopeJson, hjb]

/-- C2 at concrete inputs: JSON-body descriptor with payload `{"a":1}` gets
the parsed object as its body field; plain descriptor with payload `hello`
gets the opaque bytes. -/
theorem c2_witness :
    (∃ env, envelopeJson esJson.jsonBody
        { topic := msgJsonA.topic, body := msgJsonA.payload,
          metadata := esJson.metadata } = some env ∧
      serializeMessage esJson msgJsonA = some (renderJson env) ∧
      bodyField env =
        some (Json.obj (JsonFields.fcons [97] (Json.num [49]) JsonFields.fnil))) ∧
    (∃ env, envelopeJson esPlain.jsonBody
        { topic := msgHello.topic, body := msgHello.payload,
          metadata := esPlain.metadata } = some env ∧
      serializeMessage esPlain msgHello = some (renderJson env) ∧
      bodyField env = some (Json.b64 msgHello.payload)) :=
  ⟨(c2_json_body_flag_law esJson msgJsonA).1 rfl
      (Json.obj (JsonFields.fcons [97] (Json.num [49]) JsonFields.fnil)) rfl,
    (c2_json_body_flag_law esPlain msgHello).2 rfl⟩

/-- C3: when option resolution succeeds but connect-with-backoff exhausts its
retries with error `e`, `StartListening` returns the error wrapped with the
broker address and no dispatch call happens in the run. -/
theorem c3_connect_failure_wraps_broker (es : EmitterEventSource) (env : Env)
    (e : String) (hres : resolveOptions es env = none)
    (hconn : env.connectResult = some e) :
    startListening es env =
      (some ("failed to connect to " ++ es.broker ++ ": " ++ e),
        [RunAction.connectAttempted]) ∧
    countDispatched (startListening es env).2 = 0 := by
  have h : startListening es env =
      (some ("failed to connect to " ++ es.broker ++ ": " ++ e),
        [RunAction.connectAttempted]) := by
    simp [startListening, hres, hconn]
  exact ⟨h, by rw [h]; rfl⟩

/-- C3 at a concrete input: plain descriptor, connection refused. -/
theorem c3_witness :
    startListening esPlain envConnFail =
      (some ("failed to connect to " ++ esPlain.broker ++ ": " ++ "connection refused"),
        [RunAction.connectAttempted]) ∧
    countDispatched (startListening esPlain envConnFail).2 = 0 :=
  c3_connect_failure_wraps_broker esPlain envConnFail "connection refused" rfl rfl

/-- C4: once option resolution, connect and subscribe all succeed, the run
returns nil after cancellation, and the outcome of the unsubscribe call never
changes that return value. -/
theorem c4_graceful_stop_returns_nil (es : EmitterEventSource) (env : Env)
    (hres : resolveOptions es env = none) (hconn : env.connectResult = none)
    (hsub : env.subscribeResult = none) :
    (startListening es env).1 = none ∧
    ∀ u, (startListening es { env with unsubscribeResult := u }).1 = none := by
  constructor
  · simp [startListening, hres, hconn, hsub]
  · intro u
    have heq : startListening es { env with unsubscribeResult := u } =
        startListening es env := rfl
    rw [heq]
    simp [startListening, hres, hconn, hsub]

/-- C4 at a concrete input: the happy-path run returns nil, and still does
with a failing unsubscribe call. -/
theorem c4_witness :
    (startListening esPlain envHappy).1 = none ∧
    (startListening esPlain
      { envHappy with unsubscribeResult := some "not connected" }).1 = none :=
  ⟨(c4_graceful_stop_returns_nil esPlain envHappy rfl rfl rfl).1,
    (c4_graceful_stop_returns_nil esPlain envHappy rfl rfl rfl).2
      (some "not connected")⟩

/-- C5: a message whose envelope fails to marshal or whose dispatch call
returns an error records `EventProcessingFailed`, while the run still returns
nil and its trace still processes every delivered message through the same
per-message callback, ending with the unsubscribe attempt. -/
theorem c5_message_failure_isolated (es : EmitterEventSource) (env : Env)
    (msg : Message) (hres : resolveOptions es env = none)
    (hconn : env.connectResult = none) (hsub : env.subscribeResult = none)
    (_hmem : msg ∈ env.messages)
    (hfail : serializeMessage es msg = none ∨
      ∃ bytes e, serializeMessage es msg = some bytes ∧ env.dispatch bytes = some e) :
    RunAction.processingFailed ∈ handleMessage es env.dispatch msg ∧
    (startListening es env).1 = none ∧
    (startListening es env).2 =
      RunAction.connectAttempted :: RunAction.subscribed ::
        (env.messages.flatMap (handleMessage es env.dispatch) ++
          [RunAction.unsubscribeAttempted]) := by
  refine ⟨?_, ?_, ?_⟩
  · rcases hfail with h | ⟨bytes, e, hb, hd⟩
    · rw [handleMessage_eq, h]
      simp
    · rw [handleMessage_eq, hb]
      simp [hd]
  · simp [startListening, hres, hconn, hsub]
  · simp [startListening, hres, hconn, hsub]

/-- C5 at a concrete input: the always-rejecting pipeline fails the `hello`
message, the run still returns nil. -/
theorem c5_witness :
    RunAction.processingFailed ∈
      handleMessage esPlain envDispatchFail.dispatch msgHello ∧
    (startListening esPlain envDispatchFail).1 = none ∧
    (startListening esPlain envDispatchFail).2 =
      RunAction.connectAttempted :: RunAction.subscribed ::
        (envDispatchFail.messages.flatMap
            (handleMessage esPlain envDispatchFail.dispatch) ++
          [RunAction.unsubscribeAttempted]) :=
  c5_message_failure_isolated esPlain envDispatchFail msgHello rfl rfl rfl
    (by simp [envDispatchFail, envHappy])
    (Or.inr ⟨(serializeMessage esPlain msgHello).getD [], "dispatch failed", rfl, rfl⟩)

/-- C6 (amended): the deferred metric closure records
`EventProcessingDuration` exactly once for every handled message, whatever
the marshal and dispatch outcomes. -/
theorem c6_duration_every_message (es : EmitterEventSource)
    (d : List Nat → Option String) (msg : Message) :
    countDuration (handleMessage es d msg) = 1 := by
  rw [handleMessage_eq]
  cases serializeMessage es msg with
  | none => simp [countDuration]
  | some bytes =>
    cases hd : d bytes with
    | some e => simp [countDuration, hd]
    | none => simp [countDuration, hd]

/-- C6 fails as stated: on a JSON-body message whose payload does not parse,
`dispatch` is never called (so no dispatch completed without error), yet
`EventProcessingDuration` is still recorded. -/
theorem c6_counterexample :
    countDuration (handleMessage esJson dOk msgNotJson) = 1 ∧
    countDispatched (handleMessage esJson dOk msgNotJson) = 0 :=
  ⟨rfl, rfl⟩

/-- C7 (amended): `parseEventSource` fails exactly on malformed YAML; a
well-formed mapping always parses, with absent fields (the watch-path address
and path identifier included) kept at their zero values. -/
theorem c7_parse_never_validates (block : YamlBlock) :
    ((∃ e, parseEventSource block = Except.error e) ↔ block = YamlBlock.malformed) ∧
    (∀ fs, block = YamlBlock.fields fs →
      parseEventSource block = Except.ok (some
        { watchPathConfig :=
            { directory := lookupField fs "directory", path := lookupField fs "path" },
          type := lookupField fs "type" })) := by
  cases block with
  | malformed =>
    refine ⟨⟨fun _ => rfl, fun _ => ⟨"yaml: unmarshal errors", rfl⟩⟩, ?_⟩
    rintro fs ⟨⟩
  | nullDoc =>
    refine ⟨⟨?_, ?_⟩, ?_⟩
    · rintro ⟨e, h⟩
      cases h
    · rintro ⟨⟩
    · rintro fs ⟨⟩
  | fields fs =>
    refine ⟨⟨?_, ?_⟩, ?_⟩
    · rintro ⟨e, h⟩
      cases h
    · rintro ⟨⟩
    · rintro fs' h
      cases h
      rfl

/-- C7 fails as stated: a block with no watch-path address and no path
identifier parses successfully, with both required fields empty. -/
theorem c7_counterexample :
    parseEventSource (YamlBlock.fields [("type", "create")]) =
      Except.ok (some
        { watchPathConfig := { directory := "", path := "" }, type := "create" }) :=
  rfl

/-- C7 at a concrete input: the amended behavior on a well-formed mapping. -/
theorem c7_witness :
    parseEventSource (YamlBlock.fields [("type", "create")]) =
      Except.ok (some
        { watchPathConfig :=
            { directory := lookupField [("type", "create")] "directory",
              path := lookupField [("type", "create")] "path" },
          type := lookupField [("type", "create")] "type" }) :=
  (c7_parse_never_validates (YamlBlock.fields [("type", "create")])).2
    [("type", "create")] rfl

/-- C8: normalize-plus-serialize is a function of the message's topic and
payload and the descriptor's JSON-body flag and metadata alone, so two runs
over equal inputs produce byte-identical envelopes. -/
theorem c8_serialize_deterministic (es es' : EmitterEventSource)
    (msg msg' : Message) (hjb : es.jsonBody = es'.jsonBody)
    (hmeta : es.metadata = es'.metadata) (htopic : msg.topic = msg'.topic)
    (hpayload : msg.payload = msg'.payload) :
    serializeMessage es msg = serializeMessage es' msg' := by
  simp [serializeMessage, hjb, hmeta, htopic, hpayload]

/-- C8 at concrete inputs: two descriptors differing only in broker and
channel serialize the same message to the same bytes. -/
theorem c8_witness :
    serializeMessage esPlain msgHello =
      serializeMessage
        { broker := "y", channelKey := "k2", channelName := "d", username := none,
          password := none, tls := false, jsonBody := false, metadata := [] }
        msgHello :=
  c8_serialize_deterministic esPlain
    { broker := "y", channelKey := "k2", channelName := "d", username := none,
      password := none, tls := false, jsonBody := false, metadata := [] }
    msgHello msgHello rfl rfl rfl rfl

/-- C9: when a present TLS block fails to resolve, or a referenced username
or password secret fails to resolve, the run returns a non-nil error with an
empty trace: no connection attempt and no dispatch call. -/
theorem c9_resolve_failure_aborts (es : EmitterEventSource) (env : Env)
    (h : (es.tls = true ∧ env.tlsResult.isSome) ∨
      (es.username.isSome ∧ env.usernameResult.isSome) ∨
      (es.password.isSome ∧ env.passwordResult.isSome)) :
    (∃ e, (startListening es env).1 = some e) ∧
    (startListening es env).2 = [] := by
  have hres : resolveOptions es env ≠ none := by
    intro hnone
    rcases h with ⟨ht, hr⟩ | ⟨hu, hr⟩ | ⟨hp, hr⟩
    · rw [Option.isSome_iff_exists] at hr
      obtain ⟨e, he⟩ := hr
      simp [resolveOptions, ht, he] at hnone
    · rw [Option.isSome_iff_exists] at hu hr
      obtain ⟨sel, hsel⟩ := hu
      obtain ⟨e, he⟩ := hr
      cases htls : es.tls <;> cases htr : env.tlsResult <;>
        simp [resolveOptions, htls, htr, hsel, he] at hnone
    · rw [Option.isSome_iff_exists] at hp hr
      obtain ⟨sel, hsel⟩ := hp
      obtain ⟨e, he⟩ := hr
      cases htls : es.tls <;> cases htr : env.tlsResult <;>
        cases hun : es.username <;> cases hur : env.usernameResult <;>
          simp [resolveOptions, htls, htr, hun, hur, hsel, he] at hnone
  cases hro : resolveOptions es env with
  | none => exact absurd hro hres
  | some e =>
    exact ⟨⟨e, by simp [startListening, hro]⟩, by simp [startListening, hro]⟩

/-- C9 at a concrete input: a descriptor with a TLS block whose resolution
fails. -/
theorem c9_witness :
    (∃ e, (startListening { esPlain with tls := true }
      { envHappy with tlsResult := some "bad certificate" }).1 = some e) ∧
    (startListening { esPlain with tls := true }
      { envHappy with tlsResult := some "bad certificate" }).2 = [] :=
  c9_resolve_failure_aborts { esPlain with tls := true }
    { envHappy with tlsResult := some "bad certificate" }
    (Or.inl ⟨rfl, rfl⟩)

/-- C10: with the JSON-body flag set and a payload that is not valid JSON,
the envelope fails to marshal, so the message records `EventProcessingFailed`
once (plus the deferred duration metric) and `dispatch` is never called for
it. -/
theorem c10_invalid_json_payload_dropped (es : EmitterEventSource)
    (d : List Nat → Option String) (msg : Message) (hjb : es.jsonBody = true)
    (hinv : parseJson msg.payload = none) :
    serializeMessage es msg = none ∧
    handleMessage es d msg =
      [RunAction.processingFailed, RunAction.processingDuration] ∧
    countFailed (handleMessage es d msg) = 1 ∧
    countDispatched (handleMessage es d msg) = 0 := by
  have hser : serializeMessage es msg = none := by
    simp [serializeMessage, marshalEmitterEventData, envelopeJson, hjb, hinv]
  have htrace : handleMessage es d msg =
      [RunAction.processingFailed, RunAction.processingDuration] := by
    rw [handleMessage_eq, hser]
  refine ⟨hser, htrace, ?_, ?_⟩
  · rw [htrace]
    rfl
  · rw [htrace]
    rfl

/-- C10 at a concrete input: JSON-body descriptor, payload `nope`. -/
theorem c10_witness :
    serializeMessage esJson msgNotJson = none ∧
    handleMessage esJson dOk msgNotJson =
      [RunAction.processingFailed, RunAction.processingDuration] ∧
    countFailed (handleMessage esJson dOk msgNotJson) = 1 ∧
    countDispatched (handleMessage esJson dOk msgNotJson) = 0 :=
  c10_invalid_json_payload_dropped esJson dOk msgNotJson rfl rfl
